import Mathlib

/-!
Shallow embedding of the device connection lifecycle manager in
src/src/python/kasaApi.py (homebridge-kasa-python).

Python dictionaries keyed by host strings are modelled as insertion-ordered
association lists.  Device handles, device configs, serialized infos and
asyncio.Lock objects are modelled by numeric identities (two distinct
identities model two distinct Python objects).  Network calls performed by
the external kasa library (Device.connect, Device.update,
Device.disconnect) are modelled by explicit outcome oracles passed to each
function; Device.disconnect is modelled as never raising.  Each stateful
function additionally returns the list of observable device-level events it
performed, in order.
-/

namespace KasaApi

/-- Association list modelling a Python dict keyed by host strings. -/
abbrev AListS (α : Type) := List (String × α)

/-- Python `d.get(k)` / `d[k]`: value of the first (unique) binding of `k`. -/
def lookupA {α : Type} : AListS α → String → Option α
  | [], _ => none
  | (k, v) :: t, h => if k = h then some v else lookupA t h

/-- Python `d[k] = v`: replace the binding in place if present, else append. -/
def insertA {α : Type} : AListS α → String → α → AListS α
  | [], h, v => [(h, v)]
  | (k, w) :: t, h, v => if k = h then (k, v) :: t else (k, w) :: insertA t h v

/-- Python `d.pop(k, None)` as a state change: drop every binding of `k`
(a Python dict binds each key once, so this is exactly the dict pop). -/
def eraseA {α : Type} : AListS α → String → AListS α
  | [], _ => []
  | (k, w) :: t, h => if k = h then eraseA t h else (k, w) :: eraseA t h

/-- Python `if k not in d: d[k] = v` (kasaApi.py lines 208-211). -/
def insertIfAbsent {α : Type} (c : AListS α) (h : String) (v : α) : AListS α :=
  match lookupA c h with
  | some _ => c
  | none => insertA c h v

/-! ## Host Lock Table (kasaApi.py lines 22, 210-211, 272, 283, 321, 330) -/

/-- Lock lookup as performed by get_sys_info and control_device
(kasaApi.py lines 272, 283, 321, 330):
Python `device_lock_cache.get(host, asyncio.Lock())`.
The second argument of dict.get is a default that is returned when the key
is absent; it is NOT stored into the dict.  `fresh` is the identity of the
newly allocated asyncio.Lock object produced by evaluating the default
expression; a second evaluation allocates a different object. -/
def lock_lookup (table : AListS Nat) (host : String) (fresh : Nat) : Nat :=
  match lookupA table host with
  | some l => l
  | none => fresh

/-- Lock creation as performed by discover_devices (kasaApi.py lines 210-211):
Python `if host not in device_lock_cache: device_lock_cache[host] = asyncio.Lock()`. -/
def lock_create (table : AListS Nat) (host : String) (fresh : Nat) : AListS Nat :=
  insertIfAbsent table host fresh

/-! ## Session Resolver (kasaApi.py lines 295-308) -/

/-- Observable device-level events, in program order. -/
inductive Ev where
  | connectAttempt : Ev
  | opDispatch (handle : Nat) : Ev
  | opUpdate (handle : Nat) : Ev
  | opSerialize (handle : Nat) : Ev
  | disconnect (handle : Nat) : Ev
  | cachePop (host : String) : Ev
  deriving DecidableEq, Repr

/-- The Connection Cache: host to live device-handle identity. -/
abbrev Cache := AListS Nat

/-- Model of get_or_connect_device (kasaApi.py lines 295-308).
`connectResult` is the outcome of the external `Device.connect` call, only
consumed on a cache miss.  Returns the result (`Except.error` models the
re-raised exception), the cache after the call, and the emitted events.
On a connect failure the local `device` is still None, so no disconnect is
issued; `device_cache.pop(host, None)` runs and the exception is re-raised. -/
def get_or_connect_device (cache : Cache) (host : String)
    (connectResult : Except String Nat) :
    Except String Nat × Cache × List Ev :=
  match lookupA cache host with
  | some d => (.ok d, cache, [])
  | none =>
    match connectResult with
    | .ok d => (.ok d, insertA cache host d, [.connectAttempt])
    | .error e => (.error e, eraseA cache host, [.connectAttempt, .cachePop host])

/-! ## Status read and control write with the retry protocol
(kasaApi.py lines 267-293 and 310-339) -/

/-- Result of control_device as observed by its caller: a returned success
payload, a returned structured error payload, or an exception escaping
control_device itself (converted to a 500 response by the route). -/
inductive CtlResult where
  | success : CtlResult
  | errorPayload (msg : String) : CtlResult
  | raised (msg : String) : CtlResult
  deriving DecidableEq, Repr

/-- Model of control_device (kasaApi.py lines 310-339), entered after
`DeviceConfig.from_dict` succeeded.  `c1`/`c2` are the outcomes of the up to
two `Device.connect` calls, `op` is the outcome of
perform_device_action on a given handle (the same feature, action, value
and child_num are passed on both attempts).  `Device.disconnect` is
modelled as never raising.  When the first get_or_connect_device call
raises, the local `device` was never bound, so both except handlers die on
an UnboundLocalError which escapes control_device. -/
def control_device (cache : Cache) (host : String)
    (c1 c2 : Except String Nat) (op : Nat → Except String Unit) :
    CtlResult × Cache × List Ev :=
  match get_or_connect_device cache host c1 with
  | (.error _, cache1, ev1) => (.raised "UnboundLocalError", cache1, ev1)
  | (.ok d1, cache1, ev1) =>
    match op d1 with
    | .ok _ => (.success, cache1, ev1 ++ [.opDispatch d1])
    | .error _ =>
      let cache2 := eraseA cache1 host
      let ev2 := ev1 ++ [.opDispatch d1, .disconnect d1, .cachePop host]
      match get_or_connect_device cache2 host c2 with
      | (.error e2, cache3, ev3) =>
        (.errorPayload e2, eraseA cache3 host,
         ev2 ++ ev3 ++ [.disconnect d1, .cachePop host])
      | (.ok d2, cache3, ev3) =>
        match op d2 with
        | .ok _ => (.success, cache3, ev2 ++ ev3 ++ [.opDispatch d2])
        | .error e2 =>
          (.errorPayload e2, eraseA cache3 host,
           ev2 ++ ev3 ++ [.opDispatch d2, .disconnect d2, .cachePop host])

/-- Result of get_sys_info as observed by its caller. -/
inductive SysResult where
  | sysInfo (info : Nat) : SysResult
  | errorPayload (msg : String) : SysResult
  | raised (msg : String) : SysResult
  deriving DecidableEq, Repr

/-- The retry arm of get_sys_info (kasaApi.py lines 278-293): disconnect the
failed handle, evict the host, resolve again and serialize.  Note the code
performs NO `device.update()` on this arm (lines 284-287) before calling
custom_serializer.  `dprev` is the handle bound to `device` when the first
attempt raised. -/
def sys_info_retry (host : String) (c2 : Except String Nat)
    (ser : Nat → Except String Nat) (dprev : Nat) (cache1 : Cache)
    (evSoFar : List Ev) : SysResult × Cache × List Ev :=
  let cache2 := eraseA cache1 host
  let ev2 := evSoFar ++ [.disconnect dprev, .cachePop host]
  match get_or_connect_device cache2 host c2 with
  | (.error e2, cache3, ev3) =>
    (.errorPayload e2, eraseA cache3 host,
     ev2 ++ ev3 ++ [.disconnect dprev, .cachePop host])
  | (.ok d2, cache3, ev3) =>
    match ser d2 with
    | .ok j => (.sysInfo j, cache3, ev2 ++ ev3 ++ [.opSerialize d2])
    | .error e2 =>
      (.errorPayload e2, eraseA cache3 host,
       ev2 ++ ev3 ++ [.opSerialize d2, .disconnect d2, .cachePop host])

/-- Model of get_sys_info (kasaApi.py lines 267-293), entered after
`DeviceConfig.from_dict` succeeded.  `c1`/`c2` are the outcomes of the up
to two `Device.connect` calls, `upd` the outcome of `device.update()` and
`ser` the outcome of custom_serializer on a given handle.
`Device.disconnect` is modelled as never raising.  As in control_device, a
failure of the first get_or_connect_device call leaves `device` unbound and
an UnboundLocalError escapes. -/
def get_sys_info (cache : Cache) (host : String)
    (c1 c2 : Except String Nat) (upd : Nat → Except String Unit)
    (ser : Nat → Except String Nat) : SysResult × Cache × List Ev :=
  match get_or_connect_device cache host c1 with
  | (.error _, cache1, ev1) => (.raised "UnboundLocalError", cache1, ev1)
  | (.ok d1, cache1, ev1) =>
    match upd d1 with
    | .error _ => sys_info_retry host c2 ser d1 cache1 (ev1 ++ [.opUpdate d1])
    | .ok _ =>
      match ser d1 with
      | .ok j => (.sysInfo j, cache1, ev1 ++ [.opUpdate d1, .opSerialize d1])
      | .error _ =>
        sys_info_retry host c2 ser d1 cache1
          (ev1 ++ [.opUpdate d1, .opSerialize d1])

/-- Number of perform_device_action attempts recorded in a trace. -/
def countDispatch (tr : List Ev) : Nat :=
  (tr.filter fun e => match e with | .opDispatch _ => true | _ => false).length

/-- Number of `device.update()` calls recorded in a trace. -/
def countUpdate (tr : List Ev) : Nat :=
  (tr.filter fun e => match e with | .opUpdate _ => true | _ => false).length

/-- Number of custom_serializer runs recorded in a trace. -/
def countSerialize (tr : List Ev) : Nat :=
  (tr.filter fun e => match e with | .opSerialize _ => true | _ => false).length

/-- Number of `Device.connect` attempts recorded in a trace. -/
def countConnect (tr : List Ev) : Nat :=
  (tr.filter fun e => match e with | .connectAttempt => true | _ => false).length

/-! ## Action Dispatcher (kasaApi.py lines 341-402) -/

/-- One call made on the external device library by a dispatch. -/
inductive DevCall where
  | turnOn : DevCall
  | turnOff : DevCall
  | lightCall (action : String) (value : Int) : DevCall
  | fanCall (action : String) (value : Int) : DevCall
  | hsvCall (action : String) (hue sat value : Int) : DevCall
  | stateCall (action : String) : DevCall
  deriving DecidableEq, Repr

/-- The capability surface of a dispatch target (a device or one child),
as read by perform_device_action and the handlers: presence of the Light
and Fan modules, `light.has_feature` answers, `light.valid_temperature_range`
and the current `light.hsv` triple. -/
structure Target where
  hasLight : Bool
  featBrightness : Bool
  featColorTemp : Bool
  featHsv : Bool
  hasFan : Bool
  tempRange : Int × Int
  hsv : Int × Int × Int
  deriving DecidableEq, Repr

/-- A device as seen by perform_device_action: itself and its children. -/
structure DeviceM where
  self : Target
  children : List Target
  deriving DecidableEq, Repr

/-- The Python value passed as `value` (from JSON: an int, a dict of ints,
or None when the request body has no value field). -/
inductive PyVal where
  | int (i : Int) : PyVal
  | dict (m : AListS Int) : PyVal
  | noneV : PyVal
  deriving DecidableEq, Repr

/-- Python list indexing `xs[i]`: negative indices count from the end;
out of range is None here (an IndexError at the call site). -/
def pyIndex {α : Type} (xs : List α) (i : Int) : Option α :=
  let j := if i < 0 then i + xs.length else i
  if 0 ≤ j then xs.get? j.toNat else none

/-- Target resolution (kasaApi.py line 348):
`target = device.children[child_num] if child_num is not None else device`. -/
def resolveTarget (dev : DeviceM) (childNum : Option Int) : Option Target :=
  match childNum with
  | none => some dev.self
  | some i => pyIndex dev.children i

/-- handle_brightness (kasaApi.py lines 367-375): value 0 turns the target
off, a value in (0, 100] invokes the named light action with it, anything
else turns the target on.  Returns the device calls made. -/
def handle_brightness (_target : Target) (action : String) (value : Int) :
    List DevCall :=
  if value = 0 then [.turnOff]
  else if 0 < value ∧ value ≤ 100 then [.lightCall action value]
  else [.turnOn]

/-- handle_color_temp (kasaApi.py lines 377-382): clamp the value with
Python `max(min(value, max_temp), min_temp)` against
`light.valid_temperature_range` and invoke the named light action. -/
def handle_color_temp (target : Target) (action : String) (value : Int) :
    List DevCall :=
  [.lightCall action (max (min value target.tempRange.2) target.tempRange.1)]

/-- handle_fan_speed_level (kasaApi.py lines 384-392): same zero/range/else
policy as brightness, invoking the named fan action. -/
def handle_fan_speed_level (_target : Target) (action : String) (value : Int) :
    List DevCall :=
  if value = 0 then [.turnOff]
  else if 0 < value ∧ value ≤ 100 then [.fanCall action value]
  else [.turnOn]

/-- handle_hsv (kasaApi.py lines 394-402): read the current
(hue, saturation, value) triple from `light.hsv`, overwrite index 0 from
`value["hue"]` when the feature is hue, index 1 from `value["saturation"]`
when it is saturation, and invoke the named action with the full triple.
A missing dict key is a KeyError. -/
def handle_hsv (target : Target) (action feature : String)
    (value : AListS Int) : Except String (List DevCall) :=
  if feature = "hue" then
    match lookupA value "hue" with
    | some x => .ok [.hsvCall action x target.hsv.2.1 target.hsv.2.2]
    | none => .error "KeyError: hue"
  else if feature = "saturation" then
    match lookupA value "saturation" with
    | some x => .ok [.hsvCall action target.hsv.1 x target.hsv.2.2]
    | none => .error "KeyError: saturation"
  else .ok [.hsvCall action target.hsv.1 target.hsv.2.1 target.hsv.2.2]

/-- Error message of the final else branch of perform_device_action
(kasaApi.py line 364). -/
def invalidMsg : String := "Invalid feature or action"

/-- Error message raised by `light.has_feature(...)` when the Light module
is absent, since `target.modules.get(Module.Light)` returned None. -/
def noneAttrMsg : String :=
  "AttributeError: NoneType object has no attribute has_feature"

/-- Model of perform_device_action (kasaApi.py lines 341-365).  Returns the
outcome (ok, or the raised exception's message) together with the device
calls actually made.  The elif chain is translated branch by branch:
feature "state" calls the named action on the target; "brightness",
"color_temp" and "hue"/"saturation" consult `light.has_feature`, which
raises an AttributeError when the Light module is None; "fan_speed_level"
tests the Fan module by truthiness; a chain fall-through raises
ValueError("Invalid feature or action") with no device call.  Passing a
non-int value to the numeric handlers (or a non-dict to handle_hsv) raises
a TypeError inside the handler before any device call. -/
def perform_device_action (dev : DeviceM) (feature action : String)
    (value : PyVal) (childNum : Option Int) :
    Except String Unit × List DevCall :=
  match resolveTarget dev childNum with
  | none => (.error "IndexError: list index out of range", [])
  | some t =>
    if feature = "state" then (.ok (), [.stateCall action])
    else if feature = "brightness" then
      if t.hasLight then
        if t.featBrightness then
          match value with
          | .int v => (.ok (), handle_brightness t action v)
          | _ => (.error "TypeError", [])
        else (.error invalidMsg, [])
      else (.error noneAttrMsg, [])
    else if feature = "color_temp" then
      if t.hasLight then
        if t.featColorTemp then
          match value with
          | .int v => (.ok (), handle_color_temp t action v)
          | _ => (.error "TypeError", [])
        else (.error invalidMsg, [])
      else (.error noneAttrMsg, [])
    else if feature = "fan_speed_level" then
      if t.hasFan then
        match value with
        | .int v => (.ok (), handle_fan_speed_level t action v)
        | _ => (.error "TypeError", [])
      else (.error invalidMsg, [])
    else if feature = "hue" ∨ feature = "saturation" then
      if t.hasLight then
        if t.featHsv then
          match value with
          | .dict m =>
            match handle_hsv t action feature m with
            | .ok calls => (.ok (), calls)
            | .error e => (.error e, [])
          | _ => (.error "TypeError", [])
        else (.error invalidMsg, [])
      else (.error noneAttrMsg, [])
    else (.error invalidMsg, [])

/-! ## Device Classifier & Serializer (kasaApi.py lines 35-108) -/

/-- JSON-like values produced by the serializers. -/
inductive JVal where
  | str (s : String) : JVal
  | int (n : Int) : JVal
  | bool (b : Bool) : JVal
  | null : JVal
  | obj (fields : List (String × JVal)) : JVal
  | arr (items : List JVal) : JVal

/-- The Light module surface read by get_light_info: feature presence and
the current values. -/
structure LightM where
  featBrightness : Bool
  featColorTemp : Bool
  featHsv : Bool
  brightness : Int
  color_temp : Int
  hsv : Int × Int × Int

/-- A child device as read by serialize_child. -/
structure SChild where
  aliasName : String
  device_id : String
  state : Bool
  light : Option LightM
  fanSpeed : Option Int

/-- A device as read by custom_serializer.  `aliasOpt` is `device.alias`
(None possible), `sysDeviceId` is `device.sys_info.get("deviceId")`,
`fanSpeed` is `fan_module.fan_speed_level` when the Fan module is present. -/
structure SDevice where
  aliasOpt : Option String
  device_type : String
  host : String
  device_id : String
  mac : String
  sysDeviceId : Option String
  hw_ver : String
  sw_ver : String
  model : String
  state : Bool
  children : List SChild
  light : Option LightM
  fanSpeed : Option Int

/-- The child id (kasaApi.py line 39): everything after the first
underscore of device_id when one occurs, else device_id itself
(Python split with maxsplit 1). -/
def childIdOf (device_id : String) : String :=
  match device_id.splitOn "_" with
  | [] => device_id
  | [_] => device_id
  | _ :: rest => String.intercalate "_" rest

/-- get_light_info (kasaApi.py lines 50-61): one entry per light feature the
module reports, the hsv entry carrying only hue and saturation. -/
def get_light_info (l : LightM) : List (String × JVal) :=
  (if l.featBrightness then [("brightness", .int l.brightness)] else []) ++
  (if l.featColorTemp then [("color_temp", .int l.color_temp)] else []) ++
  (if l.featHsv then
    [("hsv", .obj [("hue", .int l.hsv.1), ("saturation", .int l.hsv.2.1)])]
   else [])

/-- serialize_child (kasaApi.py lines 35-48): alias, shortened id and state,
merged with light info and fan speed when those modules are present. -/
def serialize_child (c : SChild) : List (String × JVal) :=
  [("alias", .str c.aliasName), ("id", .str (childIdOf c.device_id)),
   ("state", .bool c.state)] ++
  (match c.light with | some l => get_light_info l | none => []) ++
  (match c.fanSpeed with
   | some f => [("fan_speed_level", .int f)]
   | none => [])

/-- custom_serializer (kasaApi.py lines 63-108): returns the sys_info and
feature_info objects as ordered field lists.  The alias falls back to the
device type and host joined by an underscore; device_id falls back to
sys_info's deviceId (possibly null) when it equals the mac.  A device with
children gets the children list and no state or light or fan fields; a
childless device gets state plus the light and fan info inline.
feature_info defaults every flag to false and overrides from the modules. -/
def custom_serializer (d : SDevice) :
    List (String × JVal) × List (String × JVal) :=
  let child_num : Int := d.children.length
  let aliasV : String :=
    match d.aliasOpt with
    | some a => a
    | none => d.device_type ++ "_" ++ d.host
  let deviceIdV : JVal :=
    if d.mac ≠ d.device_id then .str d.device_id
    else match d.sysDeviceId with
         | some s => .str s
         | none => .null
  let base : List (String × JVal) :=
    [("alias", .str aliasV), ("child_num", .int child_num),
     ("device_id", deviceIdV), ("device_type", .str d.device_type),
     ("host", .str d.host), ("hw_ver", .str d.hw_ver), ("mac", .str d.mac),
     ("model", .str d.model), ("sw_ver", .str d.sw_ver)]
  let sys_info : List (String × JVal) :=
    if 0 < d.children.length then
      base ++ [("children", .arr (d.children.map fun c => .obj (serialize_child c)))]
    else
      base ++ [("state", .bool d.state)] ++
      (match d.light with | some l => get_light_info l | none => []) ++
      (match d.fanSpeed with
       | some f => [("fan_speed_level", .int f)]
       | none => [])
  let feature_info : List (String × JVal) :=
    [("brightness", .bool (match d.light with
                           | some l => l.featBrightness
                           | none => false)),
     ("color_temp", .bool (match d.light with
                           | some l => l.featColorTemp
                           | none => false)),
     ("hsv", .bool (match d.light with
                    | some l => l.featHsv
                    | none => false)),
     ("fan", .bool d.fanSpeed.isSome)]
  (sys_info, feature_info)

/-- Field names of a serialized object. -/
def keysOf (fields : List (String × JVal)) : List String :=
  fields.map Prod.fst

/-! ## Discovery sweep tail (kasaApi.py lines 184-244) -/

/-- UNSUPPORTED_TYPES (kasaApi.py lines 25-33), as DeviceType values. -/
def UNSUPPORTED_TYPES : List String :=
  ["camera", "sensor", "hub", "fan", "thermostat", "vacuum", "unknown"]

/-- Per-host outcomes of the external calls made by the tail of
discover_devices: the line-186 `device.update()`, the HomeKit/Matter module
check (whether it raises, and its answer), `device.device_type.value`,
whether create_device_info succeeds, the config and info values it
produces, and the outcome of the `Device.connect` that
get_or_connect_device would make on the classify-failure path. -/
structure HostOracle where
  updateOk : Bool
  moduleRaises : Bool
  hasHomekitMatter : Bool
  deviceType : String
  classifyOk : Bool
  cfgVal : Nat
  infoVal : Nat
  reconnectR : Except String Nat

/-- The three process-wide stores of kasaApi.py (lines 21-23). -/
structure DState where
  devCache : Cache
  lockCache : AListS Nat
  cfgCache : AListS Nat
  deriving DecidableEq, Repr

/-- One iteration of the filter loop (kasaApi.py lines 184-215) on one
working-set entry: drop (with a disconnect) hosts whose update fails, or
whose HomeKit/Matter check raises or matches while hiding is on, or whose
device type is falsy or unsupported; insert survivors into the Connection
Cache and the Host Lock Table when absent. -/
def sweep_filter_step (hide : Bool) (freshLock : String → Nat)
    (o : String → HostOracle)
    (acc : DState × List (String × Nat) × List Ev) (hd : String × Nat) :
    DState × List (String × Nat) × List Ev :=
  let st := acc.1
  let survivors := acc.2.1
  let tr := acc.2.2
  let h := hd.1
  let d := hd.2
  let ho := o h
  if ¬ ho.updateOk then (st, survivors, tr ++ [.disconnect d])
  else if hide ∧ ho.moduleRaises then (st, survivors, tr ++ [.disconnect d])
  else if hide ∧ ho.hasHomekitMatter then (st, survivors, tr ++ [.disconnect d])
  else if ho.deviceType ≠ "" ∧ ho.deviceType ∉ UNSUPPORTED_TYPES then
    ({ st with devCache := insertIfAbsent st.devCache h d,
               lockCache := lock_create st.lockCache h (freshLock h) },
     survivors ++ [(h, d)], tr)
  else (st, survivors, tr ++ [.disconnect d])

/-- The Reconnect Config writes performed inside the create_device_info
tasks (kasaApi.py line 257), all of which complete before the results loop
consumes them (the tasks are gathered at line 217). -/
def sweep_config_writes (o : String → HostOracle)
    (survivors : List (String × Nat)) (cfg : AListS Nat) : AListS Nat :=
  survivors.foldl
    (fun c hd => if (o hd.1).classifyOk then insertA c hd.1 (o hd.1).cfgVal else c)
    cfg

/-- One iteration of the results loop (kasaApi.py lines 219-235): a
successful classification contributes its info to the result map; a failed
one disconnects the host's cached handle via get_or_connect_device (when a
Reconnect Config exists for it) and evicts the host from the Connection
Cache; when get_or_connect_device raises, the eviction pop is skipped (the
exception is caught at line 231 after get_or_connect_device already popped). -/
def sweep_classify_step (o : String → HostOracle)
    (acc : DState × List (String × Nat) × List Ev) (hd : String × Nat) :
    DState × List (String × Nat) × List Ev :=
  let st := acc.1
  let results := acc.2.1
  let tr := acc.2.2
  let h := hd.1
  let ho := o h
  if ho.classifyOk then (st, results ++ [(h, ho.infoVal)], tr)
  else
    match lookupA st.cfgCache h with
    | some _ =>
      match get_or_connect_device st.devCache h ho.reconnectR with
      | (.ok dd, cache', ev') =>
        ({ st with devCache := eraseA cache' h }, results,
         tr ++ ev' ++ [.disconnect dd, .cachePop h])
      | (.error _, cache', ev') =>
        ({ st with devCache := cache' }, results, tr ++ ev')
    | none => ({ st with devCache := eraseA st.devCache h }, results,
               tr ++ [.cachePop h])

/-- The cleanup step (kasaApi.py lines 237-243): disconnect every handle of
the working set; it touches none of the three stores. -/
def sweep_cleanup (devices : List (String × Nat)) : List Ev :=
  devices.map fun hd => .disconnect hd.2

/-- The phases of the sweep tail before cleanup: filter and cache the
working set, run the classification tasks (their config writes, then the
results loop). -/
def discover_classified (hide : Bool) (freshLock : String → Nat)
    (o : String → HostOracle) (devices : List (String × Nat)) (st : DState) :
    List (String × Nat) × DState × List Ev :=
  let p1 := devices.foldl (sweep_filter_step hide freshLock o) (st, [], [])
  let st1 := { p1.1 with
               cfgCache := sweep_config_writes o p1.2.1 p1.1.cfgCache }
  let p2 := p1.2.1.foldl (sweep_classify_step o) (st1, [], p1.2.2)
  (p2.2.1, p2.1, p2.2.2)

/-- Model of the tail of discover_devices (kasaApi.py lines 184-244),
starting from the merged working set `devices`: the filter/cache loop, the
classification round, then the cleanup step, whose disconnect events are
appended to the trace.  Returns the result map, the final stores and the
full event trace. -/
def discover_tail (hide : Bool) (freshLock : String → Nat)
    (o : String → HostOracle) (devices : List (String × Nat)) (st : DState) :
    List (String × Nat) × DState × List Ev :=
  let p := discover_classified hide freshLock o devices st
  (p.1, p.2.1, p.2.2 ++ sweep_cleanup devices)

/-- The (feature, capability) combinations that fall through the elif chain
of perform_device_action to the ValueError branch: an unknown feature name,
or a known feature whose required capability is absent while its module
object is present (a light feature with the Light module present but the
has_feature answer false; fan_speed_level with no Fan module). -/
def invalidCombo (t : Target) (feature : String) : Prop :=
  feature ∉ ["state", "brightness", "color_temp", "fan_speed_level",
             "hue", "saturation"] ∨
  (feature = "brightness" ∧ t.hasLight = true ∧ t.featBrightness = false) ∨
  (feature = "color_temp" ∧ t.hasLight = true ∧ t.featColorTemp = false) ∨
  (feature = "fan_speed_level" ∧ t.hasFan = false) ∨
  ((feature = "hue" ∨ feature = "saturation") ∧ t.hasLight = true ∧
   t.featHsv = false)

/-! ## Association-list lemmas -/

theorem lookupA_insertA_self {α : Type} (c : AListS α) (h : String) (v : α) :
    lookupA (insertA c h v) h = some v := by
  induction c with
  | nil => simp [insertA, lookupA]
  | cons kv t ih =>
    obtain ⟨k, w⟩ := kv
    by_cases hk : k = h
    · simp [insertA, lookupA, hk]
    · simp [insertA, lookupA, hk, ih]

theorem lookupA_insertA_ne {α : Type} (c : AListS α) (h h' : String) (v : α)
    (hne : h' ≠ h) : lookupA (insertA c h' v) h = lookupA c h := by
  induction c with
  | nil => simp [insertA, lookupA, hne]
  | cons kv t ih =>
    obtain ⟨k, w⟩ := kv
    by_cases hk : k = h'
    · subst hk
      simp [insertA, lookupA, hne]
    · by_cases hkh : k = h
      · simp [insertA, lookupA, hk, hkh, Ne.symm hne]
      · simp [insertA, lookupA, hk, hkh, ih]

theorem lookupA_eraseA_self {α : Type} (c : AListS α) (h : String) :
    lookupA (eraseA c h) h = none := by
  induction c with
  | nil => simp [eraseA, lookupA]
  | cons kv t ih =>
    obtain ⟨k, w⟩ := kv
    by_cases hk : k = h
    · simp [eraseA, hk, ih]
    · simp [eraseA, lookupA, hk, ih]

theorem lookupA_eraseA_ne {α : Type} (c : AListS α) (h h' : String)
    (hne : h' ≠ h) : lookupA (eraseA c h') h = lookupA c h := by
  induction c with
  | nil => simp [eraseA]
  | cons kv t ih =>
    obtain ⟨k, w⟩ := kv
    by_cases hk : k = h'
    · subst hk
      simp [eraseA, lookupA, hne, ih]
    · by_cases hkh : k = h
      · simp [eraseA, lookupA, hk, hkh, Ne.symm hne]
      · simp [eraseA, lookupA, hk, hkh, ih]

theorem lookupA_insertIfAbsent_preserve {α : Type} (c : AListS α)
    (h h' : String) (v : α) (l : α) (hl : lookupA c h = some l) :
    lookupA (insertIfAbsent c h' v) h = some l := by
  unfold insertIfAbsent
  cases hc : lookupA c h' with
  | some w => exact hl
  | none =>
    by_cases hk : h' = h
    · subst hk
      rw [hc] at hl
      exact absurd hl (by simp)
    · rw [lookupA_insertA_ne c h h' v hk]
      exact hl

theorem foldl_inv {σ β : Type} (P : σ → Prop) (f : σ → β → σ)
    (hstep : ∀ s b, P s → P (f s b)) :
    ∀ (l : List β) (s : σ), P s → P (l.foldl f s) := by
  intro l
  induction l with
  | nil => intro s hs; exact hs
  | cons b t ih => intro s hs; exact ih (f s b) (hstep s b hs)

/-! ## Session-resolver lemmas -/

theorem get_or_connect_device_ok_cases (cache : Cache) (host : String)
    (cres : Except String Nat) (d : Nat)
    (hok : (get_or_connect_device cache host cres).1 = .ok d) :
    (lookupA cache host = some d ∧
     get_or_connect_device cache host cres = (.ok d, cache, [])) ∨
    (lookupA cache host = none ∧ cres = .ok d ∧
     get_or_connect_device cache host cres =
       (.ok d, insertA cache host d, [.connectAttempt])) := by
  unfold get_or_connect_device at hok ⊢
  cases hc : lookupA cache host with
  | some w =>
    rw [hc] at hok
    have hw : w = d := by simpa using hok
    subst hw
    exact Or.inl ⟨rfl, rfl⟩
  | none =>
    rw [hc] at hok
    cases hcr : cres with
    | ok d' =>
      rw [hcr] at hok
      have hw : d' = d := by simpa using hok
      subst hw
      exact Or.inr ⟨rfl, rfl, rfl⟩
    | error e =>
      rw [hcr] at hok
      simp at hok

theorem get_or_connect_after_erase (cache1 : Cache) (host : String)
    (c2 : Except String Nat) :
    get_or_connect_device (eraseA cache1 host) host c2 =
      match c2 with
      | .ok d => (.ok d, insertA (eraseA cache1 host) host d, [.connectAttempt])
      | .error e => (.error e, eraseA (eraseA cache1 host) host,
                     [.connectAttempt, .cachePop host]) := by
  unfold get_or_connect_device
  rw [lookupA_eraseA_self]

/-! ## Claim C1: host lock identity -/

/-- Claim C1 counterexample: for a host absent from the Host Lock Table,
two successive lock lookups (kasaApi.py lines 272, 321) return two
distinct freshly allocated locks, and neither lookup stores anything in the
table, so repeated lookups do NOT return the same mutual-exclusion
primitive instance. -/
theorem c1_lock_lookup_not_memoized :
    lock_lookup [] "192.168.0.9" 0 = 0 ∧ lock_lookup [] "192.168.0.9" 1 = 1 ∧
    lock_lookup [] "192.168.0.9" 0 ≠ lock_lookup [] "192.168.0.9" 1 := by
  refine ⟨rfl, rfl, ?_⟩
  decide

/-- Claim C1 (amended): a lock lookup returns the stored lock, the same one
on every call, for a host present in the Host Lock Table (which only
discover_devices populates, lazily, via lines 210-211); for a host absent
from the table, each lookup returns its freshly allocated default lock
without storing it, so two such lookups return whatever two distinct lock
objects were allocated. -/
theorem c1_lock_table_semantics :
    (∀ (table : AListS Nat) (host : String) (l f1 f2 : Nat),
       lookupA table host = some l →
       lock_lookup table host f1 = l ∧ lock_lookup table host f2 = l ∧
       lock_create table host f1 = table) ∧
    (∀ (table : AListS Nat) (host : String) (f1 f2 : Nat),
       lookupA table host = none →
       lock_lookup table host f1 = f1 ∧ lock_lookup table host f2 = f2 ∧
       lookupA (lock_create table host f1) host = some f1) := by
  constructor
  · intro table host l f1 f2 hm
    refine ⟨?_, ?_, ?_⟩ <;>
      simp [lock_lookup, lock_create, insertIfAbsent, hm]
  · intro table host f1 f2 hm
    refine ⟨?_, ?_, ?_⟩ <;>
      simp [lock_lookup, lock_create, insertIfAbsent, hm, lookupA_insertA_self]

/-- Witness for c1_lock_table_semantics at concrete inputs. -/
theorem c1_lock_table_semantics_witness :
    (lock_lookup [("10.0.0.2", 5)] "10.0.0.2" 0 = 5 ∧
     lock_lookup [("10.0.0.2", 5)] "10.0.0.2" 1 = 5 ∧
     lock_create [("10.0.0.2", 5)] "10.0.0.2" 0 = [("10.0.0.2", 5)]) ∧
    (lock_lookup [] "10.0.0.3" 0 = 0 ∧ lock_lookup [] "10.0.0.3" 1 = 1 ∧
     lookupA (lock_create [] "10.0.0.3" 0) "10.0.0.3" = some 0) :=
  ⟨c1_lock_table_semantics.1 [("10.0.0.2", 5)] "10.0.0.2" 5 0 1 rfl,
   c1_lock_table_semantics.2 [] "10.0.0.3" 0 1 rfl⟩

/-! ## Claim C10: connect failure leaves no cache entry and re-raises -/

/-- Claim C10: when the host misses the Connection Cache and the
`Device.connect` attempt raises, get_or_connect_device re-raises the
failure (it never returns a handle) and afterwards the Connection Cache
holds no entry for that host; no partially created handle exists, so
nothing is disconnected and the only events are the connect attempt and
the cache pop. -/
theorem c10_connect_failure_cleans_cache (cache : Cache) (host : String)
    (e : String) (hmiss : lookupA cache host = none) :
    get_or_connect_device cache host (.error e) =
      (.error e, eraseA cache host, [.connectAttempt, .cachePop host]) ∧
    lookupA (get_or_connect_device cache host (.error e)).2.1 host = none := by
  have heq : get_or_connect_device cache host (.error e) =
      (.error e, eraseA cache host, [.connectAttempt, .cachePop host]) := by
    unfold get_or_connect_device
    rw [hmiss]
  exact ⟨heq, by rw [heq]; exact lookupA_eraseA_self cache host⟩

/-- Witness for c10_connect_failure_cleans_cache: a nonempty cache that
does not contain the failing host. -/
theorem c10_connect_failure_cleans_cache_witness :
    get_or_connect_device [("10.0.0.2", 3)] "10.0.0.7" (.error "timeout") =
      (.error "timeout", eraseA [("10.0.0.2", 3)] "10.0.0.7",
       [.connectAttempt, .cachePop "10.0.0.7"]) ∧
    lookupA (get_or_connect_device [("10.0.0.2", 3)] "10.0.0.7"
        (.error "timeout")).2.1 "10.0.0.7" = none :=
  c10_connect_failure_cleans_cache [("10.0.0.2", 3)] "10.0.0.7" "timeout" rfl

/-- Full behavior of control_device once the first attempt obtained handle
`d1` (the resolver returned state `X` with events `E`) and the dispatch on
it failed: the handle is disconnected and evicted, then one reconnect and
at most one more dispatch happen. -/
theorem control_device_eq_of_first_fail (cache : Cache) (host : String)
    (c1 c2 : Except String Nat) (op : Nat → Except String Unit)
    (d1 : Nat) (e1 : String) (X : Cache) (E : List Ev)
    (heq : get_or_connect_device cache host c1 = (.ok d1, X, E))
    (h1 : op d1 = .error e1) :
    control_device cache host c1 c2 op =
      match c2 with
      | .error e2 =>
        (.errorPayload e2, eraseA (eraseA (eraseA X host) host) host,
         E ++ [.opDispatch d1, .disconnect d1, .cachePop host] ++
           [.connectAttempt, .cachePop host] ++ [.disconnect d1, .cachePop host])
      | .ok d2 =>
        match op d2 with
        | .ok _ =>
          (.success, insertA (eraseA X host) host d2,
           E ++ [.opDispatch d1, .disconnect d1, .cachePop host] ++
             [.connectAttempt] ++ [.opDispatch d2])
        | .error e2 =>
          (.errorPayload e2, eraseA (insertA (eraseA X host) host d2) host,
           E ++ [.opDispatch d1, .disconnect d1, .cachePop host] ++
             [.connectAttempt] ++
             [.opDispatch d2, .disconnect d2, .cachePop host]) := by
  unfold control_device
  rw [heq]
  simp only [h1, get_or_connect_after_erase]
  cases c2 with
  | error e2 => rfl
  | ok d2 =>
    cases hop2 : op d2 with
    | ok u => rfl
    | error e2 => rfl

/-- Full behavior of the get_sys_info retry arm. -/
theorem sys_info_retry_eq (host : String) (c2 : Except String Nat)
    (ser : Nat → Except String Nat) (dprev : Nat) (X : Cache)
    (ev : List Ev) :
    sys_info_retry host c2 ser dprev X ev =
      match c2 with
      | .error e2 =>
        (.errorPayload e2, eraseA (eraseA (eraseA X host) host) host,
         ev ++ [.disconnect dprev, .cachePop host] ++
           [.connectAttempt, .cachePop host] ++
           [.disconnect dprev, .cachePop host])
      | .ok d2 =>
        match ser d2 with
        | .ok j =>
          (.sysInfo j, insertA (eraseA X host) host d2,
           ev ++ [.disconnect dprev, .cachePop host] ++ [.connectAttempt] ++
             [.opSerialize d2])
        | .error e2 =>
          (.errorPayload e2, eraseA (insertA (eraseA X host) host d2) host,
           ev ++ [.disconnect dprev, .cachePop host] ++ [.connectAttempt] ++
             [.opSerialize d2, .disconnect d2, .cachePop host]) := by
  unfold sys_info_retry
  simp only [get_or_connect_after_erase]
  cases c2 with
  | error e2 => rfl
  | ok d2 =>
    cases hs : ser d2 with
    | ok j => rfl
    | error e2 => rfl

/-- A first attempt of get_sys_info that fails at `device.update()` goes to
the retry arm carrying only the update event. -/
theorem get_sys_info_first_fail_update (cache : Cache) (host : String)
    (c1 c2 : Except String Nat) (upd : Nat → Except String Unit)
    (ser : Nat → Except String Nat) (d1 : Nat) (e1 : String)
    (X : Cache) (E : List Ev)
    (heq : get_or_connect_device cache host c1 = (.ok d1, X, E))
    (hupd : upd d1 = .error e1) :
    get_sys_info cache host c1 c2 upd ser =
      sys_info_retry host c2 ser d1 X (E ++ [.opUpdate d1]) := by
  unfold get_sys_info
  rw [heq]
  simp only [hupd]

/-- A first attempt of get_sys_info that fails at custom_serializer goes to
the retry arm carrying the update and serialize events. -/
theorem get_sys_info_first_fail_serialize (cache : Cache) (host : String)
    (c1 c2 : Except String Nat) (upd : Nat → Except String Unit)
    (ser : Nat → Except String Nat) (d1 : Nat) (e1 : String)
    (X : Cache) (E : List Ev)
    (heq : get_or_connect_device cache host c1 = (.ok d1, X, E))
    (hupd : upd d1 = .ok ()) (hser : ser d1 = .error e1) :
    get_sys_info cache host c1 c2 upd ser =
      sys_info_retry host c2 ser d1 X (E ++ [.opUpdate d1, .opSerialize d1]) := by
  unfold get_sys_info
  rw [heq]
  simp only [hupd, hser]

/-! ## Claim C2: invalidate, retry exactly once, then structured error -/

/-- Claim C2: for control_device and get_sys_info, when the first attempt
fails after a handle `d1` was obtained, that handle is disconnected and the
operation is retried exactly once: at most two dispatches (resp. at most
one update and two serializations) ever occur in a request, and when the
retry also fails — at the reconnect or at the retried operation — the
request returns the structured error payload carrying the second failure's
message rather than letting an exception escape, leaving no cache entry
for the host. -/
theorem c2_retry_once_then_structured_error :
    (∀ (cache : Cache) (host : String) (c1 c2 : Except String Nat)
       (op : Nat → Except String Unit) (d1 : Nat) (e1 : String),
       (get_or_connect_device cache host c1).1 = .ok d1 →
       op d1 = .error e1 →
       countDispatch (control_device cache host c1 c2 op).2.2 ≤ 2 ∧
       Ev.disconnect d1 ∈ (control_device cache host c1 c2 op).2.2 ∧
       (∀ e2, c2 = .error e2 →
          (control_device cache host c1 c2 op).1 = .errorPayload e2 ∧
          countDispatch (control_device cache host c1 c2 op).2.2 = 1) ∧
       (∀ d2 e2, c2 = .ok d2 → op d2 = .error e2 →
          (control_device cache host c1 c2 op).1 = .errorPayload e2 ∧
          countDispatch (control_device cache host c1 c2 op).2.2 = 2 ∧
          lookupA (control_device cache host c1 c2 op).2.1 host = none)) ∧
    (∀ (cache : Cache) (host : String) (c1 c2 : Except String Nat)
       (upd : Nat → Except String Unit) (ser : Nat → Except String Nat)
       (d1 : Nat) (e1 : String),
       (get_or_connect_device cache host c1).1 = .ok d1 →
       upd d1 = .error e1 ∨ upd d1 = .ok () ∧ ser d1 = .error e1 →
       countUpdate (get_sys_info cache host c1 c2 upd ser).2.2 ≤ 1 ∧
       countSerialize (get_sys_info cache host c1 c2 upd ser).2.2 ≤ 2 ∧
       Ev.disconnect d1 ∈ (get_sys_info cache host c1 c2 upd ser).2.2 ∧
       (∀ e2, c2 = .error e2 →
          (get_sys_info cache host c1 c2 upd ser).1 = .errorPayload e2) ∧
       (∀ d2 e2, c2 = .ok d2 → ser d2 = .error e2 →
          (get_sys_info cache host c1 c2 upd ser).1 = .errorPayload e2 ∧
          lookupA (get_sys_info cache host c1 c2 upd ser).2.1 host = none)) := by
  constructor
  · intro cache host c1 c2 op d1 e1 hob h1
    rcases get_or_connect_device_ok_cases cache host c1 d1 hob with
      ⟨hc, heq⟩ | ⟨hc, hc1, heq⟩ <;>
    · rw [control_device_eq_of_first_fail cache host c1 c2 op d1 e1 _ _ heq h1]
      cases c2 with
      | error e2 =>
        refine ⟨?_, ?_, ?_, ?_⟩
        · simp [countDispatch, List.filter_append, List.filter]
        · simp
        · intro e2' he2
          injection he2 with h'
          subst h'
          exact ⟨rfl, by simp [countDispatch, List.filter_append, List.filter]⟩
        · intro d2 e2' hcon
          exact absurd hcon (by simp)
      | ok d2 =>
        cases hop2 : op d2 with
        | ok u =>
          simp only [hop2]
          refine ⟨?_, ?_, ?_, ?_⟩
          · simp [countDispatch, List.filter_append, List.filter]
          · simp
          · intro e2' hcon
            exact absurd hcon (by simp)
          · intro d2' e2' hd2 hop2'
            injection hd2 with h'
            subst h'
            rw [hop2] at hop2'
            exact absurd hop2' (by simp)
        | error e2 =>
          simp only [hop2]
          refine ⟨?_, ?_, ?_, ?_⟩
          · simp [countDispatch, List.filter_append, List.filter]
          · simp
          · intro e2' hcon
            exact absurd hcon (by simp)
          · intro d2' e2' hd2 hop2'
            injection hd2 with h'
            subst h'
            rw [hop2] at hop2'
            injection hop2' with h''
            subst h''
            exact ⟨rfl, by simp [countDispatch, List.filter_append, List.filter],
                   lookupA_eraseA_self _ host⟩
  · intro cache host c1 c2 upd ser d1 e1 hob hfail
    rcases get_or_connect_device_ok_cases cache host c1 d1 hob with
      ⟨hc, heq⟩ | ⟨hc, hc1, heq⟩ <;>
      rcases hfail with hupd | ⟨hupd, hser⟩
    all_goals
      first
        | rw [get_sys_info_first_fail_update cache host c1 c2 upd ser d1 e1
                _ _ heq hupd, sys_info_retry_eq]
        | rw [get_sys_info_first_fail_serialize cache host c1 c2 upd ser d1 e1
                _ _ heq hupd hser, sys_info_retry_eq]
    all_goals
      cases c2 with
      | error e2 =>
        refine ⟨?_, ?_, ?_, ?_, ?_⟩
        · simp [countUpdate, List.filter_append, List.filter]
        · simp [countSerialize, List.filter_append, List.filter]
        · simp
        · intro e2' he2
          injection he2 with h'
          subst h'
          rfl
        · intro d2 e2' hcon _
          exact absurd hcon (by simp)
      | ok d2 =>
        cases hs2 : ser d2 with
        | ok j =>
          simp only [hs2]
          refine ⟨?_, ?_, ?_, ?_, ?_⟩
          · simp [countUpdate, List.filter_append, List.filter]
          · simp [countSerialize, List.filter_append, List.filter]
          · simp
          · intro e2' hcon
            exact absurd hcon (by simp)
          · intro d2' e2' hd2 hser'
            injection hd2 with h'
            subst h'
            rw [hs2] at hser'
            exact absurd hser' (by simp)
        | error e2 =>
          simp only [hs2]
          refine ⟨?_, ?_, ?_, ?_, ?_⟩
          · simp [countUpdate, List.filter_append, List.filter]
          · simp [countSerialize, List.filter_append, List.filter]
          · simp
          · intro e2' hcon
            exact absurd hcon (by simp)
          · intro d2' e2' hd2 hser'
            injection hd2 with h'
            subst h'
            rw [hs2] at hser'
            injection hser' with h''
            subst h''
            exact ⟨rfl, lookupA_eraseA_self _ host⟩

/-- Witness for c2_retry_once_then_structured_error: a cached handle whose
dispatch always fails and whose reconnect fails (control), and one whose
update and serializer always fail (status). -/
theorem c2_retry_once_then_structured_error_witness :
    ((control_device [("10.0.0.4", 5)] "10.0.0.4" (.ok 9) (.error "down")
        (fun _ => .error "fail")).1 = .errorPayload "down" ∧
     countDispatch (control_device [("10.0.0.4", 5)] "10.0.0.4" (.ok 9)
        (.error "down") (fun _ => .error "fail")).2.2 = 1) ∧
    ((get_sys_info [("10.0.0.4", 5)] "10.0.0.4" (.ok 9) (.ok 6)
        (fun _ => .error "stale1") (fun _ => .error "stale2")).1 =
       .errorPayload "stale2" ∧
     lookupA (get_sys_info [("10.0.0.4", 5)] "10.0.0.4" (.ok 9) (.ok 6)
        (fun _ => .error "stale1") (fun _ => .error "stale2")).2.1
        "10.0.0.4" = none) :=
  ⟨(c2_retry_once_then_structured_error.1 [("10.0.0.4", 5)] "10.0.0.4"
      (.ok 9) (.error "down") (fun _ => .error "fail") 5 "fail" rfl
      rfl).2.2.1 "down" rfl,
   (c2_retry_once_then_structured_error.2 [("10.0.0.4", 5)] "10.0.0.4"
      (.ok 9) (.ok 6) (fun _ => .error "stale1") (fun _ => .error "stale2")
      5 "stale1" rfl (Or.inl rfl)).2.2.2.2 6 "stale2" rfl rfl⟩

/-! ## Claim C8: what the single retry consists of -/

/-- Claim C8 counterexample: a status request on a cached host whose first
update fails.  The retry reconnects and serializes WITHOUT re-running
`device.update()`: the whole request performs exactly one update (the
failed one), yet returns the serialization of the never-updated fresh
handle — not the re-run update the claim requires. -/
theorem c8_status_retry_omits_update :
    get_sys_info [("10.0.0.5", 5)] "10.0.0.5" (.ok 9) (.ok 6)
        (fun _ => .error "stale") (fun d => .ok d) =
      (.sysInfo 6, [("10.0.0.5", 6)],
       [.opUpdate 5, .disconnect 5, .cachePop "10.0.0.5", .connectAttempt,
        .opSerialize 6]) ∧
    countUpdate (get_sys_info [("10.0.0.5", 5)] "10.0.0.5" (.ok 9) (.ok 6)
        (fun _ => .error "stale") (fun d => .ok d)).2.2 = 1 := by
  constructor
  · rfl
  · rfl

/-- Claim C8 (amended): when the first attempt fails after obtaining handle
`d1`, the single retry is a fresh resolve — reconnect from the stored
config, re-inserting the new handle into the Connection Cache — followed,
for a control request, by the same dispatch, but for a status request only
by custom_serializer: the retry never re-runs `device.update()`, so the
whole request contains exactly one update call. -/
theorem c8_retry_is_fresh_resolve_then_operation :
    (∀ (cache : Cache) (host : String) (c1 : Except String Nat)
       (upd : Nat → Except String Unit) (ser : Nat → Except String Nat)
       (d1 d2 : Nat) (e1 : String) (j : Nat),
       (get_or_connect_device cache host c1).1 = .ok d1 →
       upd d1 = .error e1 →
       ser d2 = .ok j →
       (get_sys_info cache host c1 (.ok d2) upd ser).1 = .sysInfo j ∧
       lookupA (get_sys_info cache host c1 (.ok d2) upd ser).2.1 host =
         some d2 ∧
       Ev.connectAttempt ∈ (get_sys_info cache host c1 (.ok d2) upd ser).2.2 ∧
       countUpdate (get_sys_info cache host c1 (.ok d2) upd ser).2.2 = 1) ∧
    (∀ (cache : Cache) (host : String) (c1 : Except String Nat)
       (op : Nat → Except String Unit) (d1 d2 : Nat) (e1 : String),
       (get_or_connect_device cache host c1).1 = .ok d1 →
       op d1 = .error e1 →
       op d2 = .ok () →
       (control_device cache host c1 (.ok d2) op).1 = .success ∧
       Ev.opDispatch d2 ∈ (control_device cache host c1 (.ok d2) op).2.2 ∧
       Ev.connectAttempt ∈ (control_device cache host c1 (.ok d2) op).2.2) := by
  constructor
  · intro cache host c1 upd ser d1 d2 e1 j hob hupd hser
    rcases get_or_connect_device_ok_cases cache host c1 d1 hob with
      ⟨hc, heq⟩ | ⟨hc, hc1, heq⟩ <;>
    · rw [get_sys_info_first_fail_update cache host c1 (.ok d2) upd ser d1 e1
            _ _ heq hupd, sys_info_retry_eq]
      simp only [hser]
      refine ⟨by simp, lookupA_insertA_self _ host d2, by simp,
              by simp [countUpdate, List.filter_append, List.filter]⟩
  · intro cache host c1 op d1 d2 e1 hob h1 hop2
    rcases get_or_connect_device_ok_cases cache host c1 d1 hob with
      ⟨hc, heq⟩ | ⟨hc, hc1, heq⟩ <;>
    · rw [control_device_eq_of_first_fail cache host c1 (.ok d2) op d1 e1
            _ _ heq h1]
      simp only [hop2]
      refine ⟨by simp, by simp, by simp⟩

/-- Witness for c8_retry_is_fresh_resolve_then_operation at concrete
inputs. -/
theorem c8_retry_is_fresh_resolve_then_operation_witness :
    ((get_sys_info [("10.0.0.6", 7)] "10.0.0.6" (.ok 9) (.ok 8)
        (fun _ => .error "stale") (fun d => .ok (d + 100))).1 =
       .sysInfo 108 ∧
     lookupA (get_sys_info [("10.0.0.6", 7)] "10.0.0.6" (.ok 9) (.ok 8)
        (fun _ => .error "stale") (fun d => .ok (d + 100))).2.1 "10.0.0.6" =
       some 8) ∧
    (control_device [("10.0.0.6", 7)] "10.0.0.6" (.ok 9) (.ok 8)
        (fun d => if d = 7 then .error "stale" else .ok ())).1 = .success :=
  ⟨⟨(c8_retry_is_fresh_resolve_then_operation.1 [("10.0.0.6", 7)] "10.0.0.6"
       (.ok 9) (fun _ => .error "stale") (fun d => .ok (d + 100)) 7 8 "stale"
       108 rfl rfl rfl).1,
    (c8_retry_is_fresh_resolve_then_operation.1 [("10.0.0.6", 7)] "10.0.0.6"
       (.ok 9) (fun _ => .error "stale") (fun d => .ok (d + 100)) 7 8 "stale"
       108 rfl rfl rfl).2.1⟩,
   (c8_retry_is_fresh_resolve_then_operation.2 [("10.0.0.6", 7)] "10.0.0.6"
       (.ok 9) (fun d => if d = 7 then .error "stale" else .ok ()) 7 8 "stale"
       rfl rfl rfl).1⟩

/-! ## Claim C4: invalid feature/action dispatches -/

/-- Claim C4 counterexample: dispatching brightness at a target whose Light
module lacks the brightness feature makes no device capability call and
raises ValueError("Invalid feature or action") — but control_device's
generic except handler then DOES run the invalidate-and-reconnect retry:
the dispatch is attempted twice and a reconnect happens before the
structured failure is returned. -/
theorem c4_invalid_feature_still_retried :
    perform_device_action
        ⟨⟨true, false, false, false, false, (0, 0), (0, 0, 0)⟩, []⟩
        "brightness" "set_brightness" (.int 40) none =
      (.error invalidMsg, []) ∧
    control_device [("10.0.0.7", 7)] "10.0.0.7" (.ok 0) (.ok 8)
        (fun _ => (perform_device_action
          ⟨⟨true, false, false, false, false, (0, 0), (0, 0, 0)⟩, []⟩
          "brightness" "set_brightness" (.int 40) none).1) =
      (.errorPayload invalidMsg, [],
       [.opDispatch 7, .disconnect 7, .cachePop "10.0.0.7", .connectAttempt,
        .opDispatch 8, .disconnect 8, .cachePop "10.0.0.7"]) ∧
    countDispatch (control_device [("10.0.0.7", 7)] "10.0.0.7" (.ok 0) (.ok 8)
        (fun _ => (perform_device_action
          ⟨⟨true, false, false, false, false, (0, 0), (0, 0, 0)⟩, []⟩
          "brightness" "set_brightness" (.int 40) none).1)).2.2 = 2 := by
  refine ⟨rfl, rfl, rfl⟩

/-- Claim C4 (amended): an unsupported (feature, action, capability)
combination — an unknown feature, or a light feature whose has_feature
answer is false with the Light module present, or fan_speed_level with no
Fan module — makes no device capability call within the dispatch and
raises ValueError("Invalid feature or action"); control_device then still
performs its generic invalidate-and-reconnect retry once (re-dispatching
the same invalid request) before returning the structured
"Invalid feature or action" error payload. -/
theorem c4_invalid_combo_error_after_one_retry :
    (∀ (dev : DeviceM) (feature action : String) (value : PyVal)
       (childNum : Option Int) (t : Target),
       resolveTarget dev childNum = some t →
       invalidCombo t feature →
       perform_device_action dev feature action value childNum =
         (.error invalidMsg, [])) ∧
    (∀ (cache : Cache) (host : String) (c1 : Except String Nat) (d1 d2 : Nat)
       (op : Nat → Except String Unit),
       (get_or_connect_device cache host c1).1 = .ok d1 →
       (∀ d, op d = .error invalidMsg) →
       (control_device cache host c1 (.ok d2) op).1 =
         .errorPayload invalidMsg ∧
       countDispatch (control_device cache host c1 (.ok d2) op).2.2 = 2 ∧
       Ev.connectAttempt ∈ (control_device cache host c1 (.ok d2) op).2.2) := by
  constructor
  · intro dev feature action value childNum t ht hcombo
    rcases hcombo with hno | ⟨hf, hl, hb⟩ | ⟨hf, hl, hb⟩ | ⟨hf, hb⟩ |
      ⟨hf, hl, hb⟩
    · simp only [List.mem_cons, List.mem_singleton, not_or] at hno
      obtain ⟨h1, h2, h3, h4, h5, h6⟩ := hno
      simp [perform_device_action, ht, h1, h2, h3, h4, h5, h6]
    · subst hf
      simp [perform_device_action, ht, hl, hb]
    · subst hf
      simp [perform_device_action, ht, hl, hb]
    · subst hf
      simp [perform_device_action, ht, hb]
    · rcases hf with hf | hf <;>
      · subst hf
        simp [perform_device_action, ht, hl, hb]
  · intro cache host c1 d1 d2 op hob hop
    rcases get_or_connect_device_ok_cases cache host c1 d1 hob with
      ⟨hc, heq⟩ | ⟨hc, hc1, heq⟩ <;>
    · rw [control_device_eq_of_first_fail cache host c1 (.ok d2) op d1
            invalidMsg _ _ heq (hop d1)]
      simp only [hop d2]
      refine ⟨by simp, by simp [countDispatch, List.filter_append, List.filter],
              by simp⟩

/-- Witness for c4_invalid_combo_error_after_one_retry at concrete
inputs. -/
theorem c4_invalid_combo_error_after_one_retry_witness :
    perform_device_action
        ⟨⟨true, true, true, true, true, (0, 0), (0, 0, 0)⟩, []⟩
        "volume" "set_volume" (.int 3) none = (.error invalidMsg, []) ∧
    (control_device [("10.0.0.8", 2)] "10.0.0.8" (.ok 9) (.ok 3)
        (fun _ => .error invalidMsg)).1 = .errorPayload invalidMsg :=
  ⟨c4_invalid_combo_error_after_one_retry.1
     ⟨⟨true, true, true, true, true, (0, 0), (0, 0, 0)⟩, []⟩
     "volume" "set_volume" (.int 3) none _ rfl (Or.inl (by decide)),
   (c4_invalid_combo_error_after_one_retry.2 [("10.0.0.8", 2)] "10.0.0.8"
     (.ok 9) 2 3 (fun _ => .error invalidMsg) rfl (fun _ => rfl)).1⟩

/-! ## Claim C5: brightness zero-means-off policy -/

/-- Claim C5: dispatching brightness at a target with the brightness
capability makes exactly one device call: value 0 powers off, a value in
the interval from 1 to 100 invokes the named light action with that value,
and any other value powers on. -/
theorem c5_brightness_zero_means_off (dev : DeviceM) (action : String)
    (childNum : Option Int) (t : Target) (v : Int)
    (ht : resolveTarget dev childNum = some t)
    (hl : t.hasLight = true) (hb : t.featBrightness = true) :
    (v = 0 →
       perform_device_action dev "brightness" action (.int v) childNum =
         (.ok (), [.turnOff])) ∧
    (0 < v → v ≤ 100 →
       perform_device_action dev "brightness" action (.int v) childNum =
         (.ok (), [.lightCall action v])) ∧
    (v ≠ 0 → ¬(0 < v ∧ v ≤ 100) →
       perform_device_action dev "brightness" action (.int v) childNum =
         (.ok (), [.turnOn])) := by
  refine ⟨?_, ?_, ?_⟩
  · intro hv
    subst hv
    simp [perform_device_action, ht, hl, hb, handle_brightness]
  · intro h0 h100
    have hne : ¬ v = 0 := by omega
    simp [perform_device_action, ht, hl, hb, handle_brightness, hne, h0, h100]
  · intro hne hrange
    simp [perform_device_action, ht, hl, hb, handle_brightness, hne, hrange]

/-- Witness for c5_brightness_zero_means_off at values 0, 40 and 150. -/
theorem c5_brightness_zero_means_off_witness :
    perform_device_action
        ⟨⟨true, true, true, true, true, (2500, 6500), (10, 20, 30)⟩, []⟩
        "brightness" "set_brightness" (.int 0) none = (.ok (), [.turnOff]) ∧
    perform_device_action
        ⟨⟨true, true, true, true, true, (2500, 6500), (10, 20, 30)⟩, []⟩
        "brightness" "set_brightness" (.int 40) none =
      (.ok (), [.lightCall "set_brightness" 40]) ∧
    perform_device_action
        ⟨⟨true, true, true, true, true, (2500, 6500), (10, 20, 30)⟩, []⟩
        "brightness" "set_brightness" (.int 150) none = (.ok (), [.turnOn]) :=
  ⟨(c5_brightness_zero_means_off
      ⟨⟨true, true, true, true, true, (2500, 6500), (10, 20, 30)⟩, []⟩
      "set_brightness" none _ 0 rfl rfl rfl).1 rfl,
   (c5_brightness_zero_means_off
      ⟨⟨true, true, true, true, true, (2500, 6500), (10, 20, 30)⟩, []⟩
      "set_brightness" none _ 40 rfl rfl rfl).2.1 (by decide) (by decide),
   (c5_brightness_zero_means_off
      ⟨⟨true, true, true, true, true, (2500, 6500), (10, 20, 30)⟩, []⟩
      "set_brightness" none _ 150 rfl rfl rfl).2.2 (by decide) (by decide)⟩

/-! ## Claim C6: color temperature clamping -/

/-- Claim C6: dispatching color_temp at a capable target whose valid range
is (lo, hi) with lo at most hi invokes the setter with
max (min value hi) lo — a value clamped into the range; in particular a
value below lo is raised to lo and an in-range value passes unchanged. -/
theorem c6_color_temp_clamped (dev : DeviceM) (action : String)
    (childNum : Option Int) (t : Target) (v lo hi : Int)
    (ht : resolveTarget dev childNum = some t)
    (hl : t.hasLight = true) (hc : t.featColorTemp = true)
    (hr : t.tempRange = (lo, hi)) (hlohi : lo ≤ hi) :
    perform_device_action dev "color_temp" action (.int v) childNum =
      (.ok (), [.lightCall action (max (min v hi) lo)]) ∧
    lo ≤ max (min v hi) lo ∧ max (min v hi) lo ≤ hi ∧
    (v < lo → max (min v hi) lo = lo) ∧
    (lo ≤ v → v ≤ hi → max (min v hi) lo = v) := by
  refine ⟨?_, le_max_right _ _, max_le (min_le_right _ _) hlohi, ?_, ?_⟩
  · simp [perform_device_action, ht, hl, hc, handle_color_temp, hr]
  · intro hv
    omega
  · intro h1 h2
    omega

/-- Witness for c6_color_temp_clamped: a value below the minimum of the
range from 2500 to 6500 is clamped up to 2500. -/
theorem c6_color_temp_clamped_witness :
    perform_device_action
        ⟨⟨true, true, true, true, true, (2500, 6500), (10, 20, 30)⟩, []⟩
        "color_temp" "set_color_temp" (.int 2000) none =
      (.ok (), [.lightCall "set_color_temp" 2500]) := by
  have h := (c6_color_temp_clamped
    ⟨⟨true, true, true, true, true, (2500, 6500), (10, 20, 30)⟩, []⟩
    "set_color_temp" none _ 2000 2500 6500 rfl rfl rfl rfl
    (by decide)).1
  simpa using h

/-! ## Claim C7: hue and saturation preserve the other components -/

/-- Claim C7: dispatching hue or saturation at a target with the hsv
capability reads the current (hue, saturation, value) triple, replaces
only the addressed component with the supplied dict entry and invokes the
action with the full triple — the other two components, including the
brightness-like value component, pass through unchanged. -/
theorem c7_hsv_partial_update (dev : DeviceM) (action : String)
    (childNum : Option Int) (t : Target) (m : AListS Int) (h0 s0 v0 x : Int)
    (ht : resolveTarget dev childNum = some t)
    (hl : t.hasLight = true) (hh : t.featHsv = true)
    (hcur : t.hsv = (h0, s0, v0)) :
    (lookupA m "hue" = some x →
       perform_device_action dev "hue" action (.dict m) childNum =
         (.ok (), [.hsvCall action x s0 v0])) ∧
    (lookupA m "saturation" = some x →
       perform_device_action dev "saturation" action (.dict m) childNum =
         (.ok (), [.hsvCall action h0 x v0])) := by
  constructor <;> intro hm <;>
    simp [perform_device_action, ht, hl, hh, handle_hsv, hm, hcur]

/-- Witness for c7_hsv_partial_update: a hue dispatch with hue 10 keeps
saturation 20 and value 30 unchanged. -/
theorem c7_hsv_partial_update_witness :
    perform_device_action
        ⟨⟨true, true, true, true, true, (2500, 6500), (10, 20, 30)⟩, []⟩
        "hue" "set_hsv" (.dict [("hue", 10)]) none =
      (.ok (), [.hsvCall "set_hsv" 10 20 30]) :=
  (c7_hsv_partial_update
    ⟨⟨true, true, true, true, true, (2500, 6500), (10, 20, 30)⟩, []⟩
    "set_hsv" none _ [("hue", 10)] 10 20 30 10 rfl rfl rfl rfl).1 rfl

/-! ## Claim C9: serialized snapshot shapes -/

/-- Claim C9: custom_serializer produces exactly one of two mutually
exclusive sys_info shapes.  A device with at least one child carries the
nine aggregate identity fields plus the children list and nothing else —
in particular no state and no brightness, color_temp, hsv or
fan_speed_level field; a childless device carries no children list but its
own state inline, together with each capability field its modules
report. -/
theorem c9_serializer_mutually_exclusive_shapes (d : SDevice) :
    ("children" ∈ keysOf (custom_serializer d).1 ↔ d.children ≠ []) ∧
    (d.children ≠ [] →
       keysOf (custom_serializer d).1 =
         ["alias", "child_num", "device_id", "device_type", "host",
          "hw_ver", "mac", "model", "sw_ver", "children"]) ∧
    (d.children = [] →
       "children" ∉ keysOf (custom_serializer d).1 ∧
       "state" ∈ keysOf (custom_serializer d).1 ∧
       (∀ l, d.light = some l →
          (l.featBrightness = true →
             "brightness" ∈ keysOf (custom_serializer d).1) ∧
          (l.featColorTemp = true →
             "color_temp" ∈ keysOf (custom_serializer d).1) ∧
          (l.featHsv = true → "hsv" ∈ keysOf (custom_serializer d).1)) ∧
       (∀ f, d.fanSpeed = some f →
          "fan_speed_level" ∈ keysOf (custom_serializer d).1)) := by
  obtain ⟨al, dt, ho, di, mc, sid, hw, sw, mo, st, ch, li, fa⟩ := d
  cases ch with
  | cons c cs =>
    refine ⟨by simp [custom_serializer, keysOf], ?_, ?_⟩
    · intro _
      simp [custom_serializer, keysOf]
    · intro hcon
      exact absurd hcon (by simp)
  | nil =>
    have hnot : "children" ∉ keysOf (custom_serializer
        ⟨al, dt, ho, di, mc, sid, hw, sw, mo, st, [], li, fa⟩).1 := by
      cases li with
      | none =>
        cases fa with
        | none => simp [custom_serializer, keysOf]
        | some f => simp [custom_serializer, keysOf]
      | some l =>
        cases fa with
        | none =>
          simp only [custom_serializer, keysOf, get_light_info]
          split_ifs <;> simp_all
        | some f =>
          simp only [custom_serializer, keysOf, get_light_info]
          split_ifs <;> simp_all
    refine ⟨by simpa using hnot, ?_, ?_⟩
    · intro hcon
      exact absurd rfl hcon
    · intro _
      refine ⟨hnot, by simp [custom_serializer, keysOf], ?_, ?_⟩
      · intro l' hl'
        cases li with
        | none => exact absurd hl' (by simp)
        | some l =>
          have hll : l = l' := by
            injection hl'
          subst hll
          refine ⟨?_, ?_, ?_⟩
          · intro hb
            simp [custom_serializer, keysOf, get_light_info, hb]
          · intro hb
            simp [custom_serializer, keysOf, get_light_info, hb]
          · intro hb
            simp [custom_serializer, keysOf, get_light_info, hb]
      · intro f hf
        cases fa with
        | none => exact absurd hf (by simp)
        | some f' =>
          have hff : f' = f := by
            injection hf
          subst hff
          simp [custom_serializer, keysOf]

/-- Witness for c9_serializer_mutually_exclusive_shapes: a strip with one
child and a childless bulb-with-fan. -/
theorem c9_serializer_mutually_exclusive_shapes_witness :
    keysOf (custom_serializer
        ⟨some "strip", "strip", "10.0.0.9", "ABC", "MAC", none, "1.0",
         "1.1", "KP303", true, [⟨"plug1", "ABC_01", true, none, none⟩],
         none, none⟩).1 =
      ["alias", "child_num", "device_id", "device_type", "host", "hw_ver",
       "mac", "model", "sw_ver", "children"] ∧
    "state" ∈ keysOf (custom_serializer
        ⟨some "bulb", "bulb", "10.0.0.10", "DEF", "MAC2", none, "1.0",
         "1.1", "KL130", true, [], some ⟨true, true, true, 50, 3000,
         (1, 2, 3)⟩, some 2⟩).1 ∧
    "brightness" ∈ keysOf (custom_serializer
        ⟨some "bulb", "bulb", "10.0.0.10", "DEF", "MAC2", none, "1.0",
         "1.1", "KL130", true, [], some ⟨true, true, true, 50, 3000,
         (1, 2, 3)⟩, some 2⟩).1 ∧
    "fan_speed_level" ∈ keysOf (custom_serializer
        ⟨some "bulb", "bulb", "10.0.0.10", "DEF", "MAC2", none, "1.0",
         "1.1", "KL130", true, [], some ⟨true, true, true, 50, 3000,
         (1, 2, 3)⟩, some 2⟩).1 ∧
    "children" ∉ keysOf (custom_serializer
        ⟨some "bulb", "bulb", "10.0.0.10", "DEF", "MAC2", none, "1.0",
         "1.1", "KL130", true, [], some ⟨true, true, true, 50, 3000,
         (1, 2, 3)⟩, some 2⟩).1 :=
  ⟨(c9_serializer_mutually_exclusive_shapes
      ⟨some "strip", "strip", "10.0.0.9", "ABC", "MAC", none, "1.0",
       "1.1", "KP303", true, [⟨"plug1", "ABC_01", true, none, none⟩],
       none, none⟩).2.1 (by simp),
   ((c9_serializer_mutually_exclusive_shapes
      ⟨some "bulb", "bulb", "10.0.0.10", "DEF", "MAC2", none, "1.0",
       "1.1", "KL130", true, [], some ⟨true, true, true, 50, 3000,
       (1, 2, 3)⟩, some 2⟩).2.2 rfl).2.1,
   (((c9_serializer_mutually_exclusive_shapes
      ⟨some "bulb", "bulb", "10.0.0.10", "DEF", "MAC2", none, "1.0",
       "1.1", "KL130", true, [], some ⟨true, true, true, 50, 3000,
       (1, 2, 3)⟩, some 2⟩).2.2 rfl).2.2.1
      ⟨true, true, true, 50, 3000, (1, 2, 3)⟩ rfl).1 rfl,
   ((c9_serializer_mutually_exclusive_shapes
      ⟨some "bulb", "bulb", "10.0.0.10", "DEF", "MAC2", none, "1.0",
       "1.1", "KL130", true, [], some ⟨true, true, true, 50, 3000,
       (1, 2, 3)⟩, some 2⟩).2.2 rfl).2.2.2 2 rfl,
   ((c9_serializer_mutually_exclusive_shapes
      ⟨some "bulb", "bulb", "10.0.0.10", "DEF", "MAC2", none, "1.0",
       "1.1", "KL130", true, [], some ⟨true, true, true, 50, 3000,
       (1, 2, 3)⟩, some 2⟩).2.2 rfl).1⟩

/-! ## Discovery-sweep lemmas -/

theorem sweep_filter_step_lock_preserve (hide : Bool) (fl : String → Nat)
    (o : String → HostOracle) (acc : DState × List (String × Nat) × List Ev)
    (hd : String × Nat) (h : String) (l : Nat)
    (hl : lookupA acc.1.lockCache h = some l) :
    lookupA (sweep_filter_step hide fl o acc hd).1.lockCache h = some l := by
  unfold sweep_filter_step
  simp only []
  split_ifs <;>
    first
      | exact hl
      | exact lookupA_insertIfAbsent_preserve _ h hd.1 (fl hd.1) l hl

theorem sweep_classify_step_lock_eq (o : String → HostOracle)
    (acc : DState × List (String × Nat) × List Ev) (hd : String × Nat) :
    (sweep_classify_step o acc hd).1.lockCache = acc.1.lockCache := by
  unfold sweep_classify_step
  simp only []
  split
  · rfl
  · split
    · split
      · rfl
      · rfl
    · rfl

theorem discover_tail_preserves_locks (hide : Bool) (fl : String → Nat)
    (o : String → HostOracle) (devices : List (String × Nat)) (st : DState)
    (h : String) (l : Nat) (hl : lookupA st.lockCache h = some l) :
    lookupA (discover_tail hide fl o devices st).2.1.lockCache h = some l := by
  have hstep1 : ∀ (s : DState × List (String × Nat) × List Ev)
      (b : String × Nat),
      lookupA s.1.lockCache h = some l →
      lookupA (sweep_filter_step hide fl o s b).1.lockCache h = some l :=
    fun s b hs => sweep_filter_step_lock_preserve hide fl o s b h l hs
  have hstep2 : ∀ (s : DState × List (String × Nat) × List Ev)
      (b : String × Nat),
      lookupA s.1.lockCache h = some l →
      lookupA (sweep_classify_step o s b).1.lockCache h = some l :=
    fun s b hs => by rw [sweep_classify_step_lock_eq]; exact hs
  have h1 := foldl_inv
    (fun s : DState × List (String × Nat) × List Ev =>
      lookupA s.1.lockCache h = some l)
    (sweep_filter_step hide fl o) hstep1 devices (st, [], []) hl
  exact foldl_inv
    (fun s : DState × List (String × Nat) × List Ev =>
      lookupA s.1.lockCache h = some l)
    (sweep_classify_step o) hstep2 _ _ h1

/-! ## Claim C3: what the sweep cleanup actually leaves behind -/

/-- Claim C3 counterexample: a sweep over one healthy, supported,
successfully classified plug.  The cleanup disconnects its handle, yet the
Connection Cache still holds that host's (now disconnected) handle when
the sweep returns — discover_devices never clears device_cache at the end,
so the cache does not end the sweep empty. -/
theorem c3_connection_cache_not_empty_after_sweep :
    (discover_tail false (fun _ => 0)
        (fun _ => ⟨true, false, false, "plug", true, 11, 21, .ok 99⟩)
        [("10.0.0.11", 1)] ⟨[], [], []⟩).2.1.devCache = [("10.0.0.11", 1)] ∧
    (discover_tail false (fun _ => 0)
        (fun _ => ⟨true, false, false, "plug", true, 11, 21, .ok 99⟩)
        [("10.0.0.11", 1)] ⟨[], [], []⟩).2.2 = [Ev.disconnect 1] ∧
    (discover_tail false (fun _ => 0)
        (fun _ => ⟨true, false, false, "plug", true, 11, 21, .ok 99⟩)
        [("10.0.0.11", 1)] ⟨[], [], []⟩).2.1.devCache ≠ [] := by
  refine ⟨rfl, rfl, by decide⟩

/-- Claim C3 (amended): at the end of a sweep every handle of the working
set has received a disconnect, and the cleanup step contributes only those
disconnect events — the result map and all three stores are exactly what
the classification phase left, so Reconnect Config and the Host Lock Table
pass through cleanup unchanged and every lock present before the sweep is
still there after it.  The Connection Cache however is NOT cleared: a
previously uncached host that survives the filters and classifies
successfully is still cached when the sweep returns. -/
theorem c3_sweep_cleanup_effects :
    (∀ (hide : Bool) (fl : String → Nat) (o : String → HostOracle)
       (devices : List (String × Nat)) (st : DState) (h : String) (d : Nat),
       (h, d) ∈ devices →
       Ev.disconnect d ∈ (discover_tail hide fl o devices st).2.2) ∧
    (∀ (hide : Bool) (fl : String → Nat) (o : String → HostOracle)
       (devices : List (String × Nat)) (st : DState),
       (discover_tail hide fl o devices st).1 =
         (discover_classified hide fl o devices st).1 ∧
       (discover_tail hide fl o devices st).2.1 =
         (discover_classified hide fl o devices st).2.1 ∧
       (discover_tail hide fl o devices st).2.2 =
         (discover_classified hide fl o devices st).2.2 ++
           sweep_cleanup devices) ∧
    (∀ (hide : Bool) (fl : String → Nat) (o : String → HostOracle)
       (devices : List (String × Nat)) (st : DState) (h : String) (l : Nat),
       lookupA st.lockCache h = some l →
       lookupA (discover_tail hide fl o devices st).2.1.lockCache h =
         some l) ∧
    (∀ (fl : String → Nat) (o : String → HostOracle) (st : DState)
       (h : String) (d : Nat),
       lookupA st.devCache h = none →
       (o h).updateOk = true →
       (o h).deviceType ≠ "" →
       (o h).deviceType ∉ UNSUPPORTED_TYPES →
       (o h).classifyOk = true →
       lookupA (discover_tail false fl o [(h, d)] st).2.1.devCache h =
         some d) := by
  refine ⟨?_, ?_, ?_, ?_⟩
  · intro hide fl o devices st h d hm
    have hsplit : (discover_tail hide fl o devices st).2.2 =
        (discover_classified hide fl o devices st).2.2 ++
          sweep_cleanup devices := rfl
    rw [hsplit]
    refine List.mem_append_right _ ?_
    exact List.mem_map.mpr ⟨(h, d), hm, rfl⟩
  · intro hide fl o devices st
    exact ⟨rfl, rfl, rfl⟩
  · intro hide fl o devices st h l hl
    exact discover_tail_preserves_locks hide fl o devices st h l hl
  · intro fl o st h d hmiss hupd htype1 htype2 hcls
    simp only [discover_tail, discover_classified, List.foldl_cons,
               List.foldl_nil, sweep_filter_step, sweep_config_writes,
               sweep_classify_step]
    simp only [hupd, htype1, htype2, hcls]
    simp [sweep_classify_step, insertIfAbsent, hmiss, lookupA_insertA_self,
          htype1, hcls]

/-- Witness for c3_sweep_cleanup_effects at a one-plug sweep, with a
pre-existing lock for another host. -/
theorem c3_sweep_cleanup_effects_witness :
    Ev.disconnect 4 ∈ (discover_tail false (fun _ => 0)
        (fun _ => ⟨true, false, false, "plug", true, 11, 21, .ok 99⟩)
        [("10.0.0.12", 4)] ⟨[], [], []⟩).2.2 ∧
    lookupA (discover_tail false (fun _ => 0)
        (fun _ => ⟨true, false, false, "plug", true, 11, 21, .ok 99⟩)
        [("10.0.0.12", 4)] ⟨[], [("10.0.0.2", 7)], []⟩).2.1.lockCache
      "10.0.0.2" = some 7 ∧
    lookupA (discover_tail false (fun _ => 0)
        (fun _ => ⟨true, false, false, "plug", true, 11, 21, .ok 99⟩)
        [("10.0.0.12", 4)] ⟨[], [], []⟩).2.1.devCache "10.0.0.12" =
      some 4 :=
  ⟨c3_sweep_cleanup_effects.1 false (fun _ => 0)
     (fun _ => ⟨true, false, false, "plug", true, 11, 21, .ok 99⟩)
     [("10.0.0.12", 4)] ⟨[], [], []⟩ "10.0.0.12" 4 (by decide),
   c3_sweep_cleanup_effects.2.2.1 false (fun _ => 0)
     (fun _ => ⟨true, false, false, "plug", true, 11, 21, .ok 99⟩)
     [("10.0.0.12", 4)] ⟨[], [("10.0.0.2", 7)], []⟩ "10.0.0.2" 7 rfl,
   c3_sweep_cleanup_effects.2.2.2 (fun _ => 0)
     (fun _ => ⟨true, false, false, "plug", true, 11, 21, .ok 99⟩)
     ⟨[], [], []⟩ "10.0.0.12" 4 rfl rfl (by decide) (by decide) rfl⟩
